import Mathlib

/-!
Shallow embedding of the order/invoice workflow of the repository
(`src/routes/invoices.js`, plus the Order model with its sequence-allocating
pre-save hook and the `Sequence` schema).  Money is modelled with rationals,
JavaScript `Math.round(x*100)/100` with an explicit floor, the document store
with association lists, and the mongoose `withTransaction` block with a pure
function returning `Except`: every write inside the route happens through the
session, so an aborted transaction leaves the entry state.
-/

namespace Invoices

/-- JavaScript `roundMoney` (`Math.round(value * 100) / 100`, invoices.js
lines 20-22): `Math.round` is floor of the argument plus one half. -/
def roundMoney (q : ℚ) : ℚ := ((⌊q * 100 + 1/2⌋ : ℤ) : ℚ) / 100

/-- Default tax rate (`DEFAULT_TAX_RATE = 0.15`). -/
def DEFAULT_TAX_RATE : ℚ := 15/100

/-- Default currency (`DEFAULT_CURRENCY = 'USD'`). -/
def DEFAULT_CURRENCY : String := "USD"

/-- Base shipping fee default (`BASE_SHIPPING_FEE`, env default 3.5). -/
def BASE_SHIPPING_FEE : ℚ := 35/10

/-- Per-item shipping fee default (`PER_ITEM_SHIPPING_FEE`, env default 0.5). -/
def PER_ITEM_SHIPPING_FEE : ℚ := 5/10

/-- Shipping fee cap default (`MAX_SHIPPING_FEE`, env default 20). -/
def MAX_SHIPPING_FEE : ℚ := 20

/-- Hex digit test used by the ObjectId validity check. -/
def isHexChar (c : Char) : Bool :=
  c.isDigit || (Char.ofNat 97 ≤ c && c ≤ Char.ofNat 102) ||
    (Char.ofNat 65 ≤ c && c ≤ Char.ofNat 70)

/-- Mongoose `Types.ObjectId.isValid` on strings: a 24-character hex string,
or any 12-character string (interpreted as 12 raw bytes). -/
def isValidObjectId (s : String) : Bool :=
  (s.length = 24 && s.data.all isHexChar) || s.length = 12

/-- JavaScript string-or (`a || b`) for strings: the empty string is falsy. -/
def jsOrS (a b : String) : String := if a = "" then b else a

/-- JavaScript `String.prototype.trim()`: strip leading and trailing
whitespace (written over the character list so that it evaluates). -/
def jsTrim (s : String) : String :=
  ⟨((s.data.dropWhile Char.isWhitespace).reverse.dropWhile Char.isWhitespace).reverse⟩

/-- Raw checkout line as received in `body.products`.  `rawId` is the value of
`item.productId || item.id || item._id || item.codigo` (the alias chain is
collapsed; `none` covers a falsy/absent reference) and `quantity` is the
result of `toNumber(item.quantity ?? item.cantidad, NaN)` where `none` is the
NaN case (absent or non-numeric). -/
structure RawItem where
  rawId : Option String
  quantity : Option ℚ
deriving DecidableEq, Repr

/-- Sanitized line item `{ productId, quantity: Math.floor(quantity) }`. -/
structure SanItem where
  productId : String
  cantidad : ℤ
deriving DecidableEq, Repr

/-- One step of the `for (const item of products)` loop in `sanitizeItems`
(invoices.js lines 50-64), returning the error message or the pushed item. -/
def sanitizeOne (item : RawItem) : Except String SanItem :=
  let productId :=
    match item.rawId with
    | some s => if s = "" then "" else jsTrim s
    | none => ""
  if productId = "" then .error "Each item must include productId"
  else if ¬ isValidObjectId productId then
    .error ("Invalid productId format: " ++ productId)
  else
    match item.quantity with
    | none => .error ("Invalid quantity for product " ++ productId)
    | some q =>
        if q ≤ 0 then .error ("Invalid quantity for product " ++ productId)
        else .ok { productId := productId, cantidad := ⌊q⌋ }

/-- Loop body of `sanitizeItems`: fail fast on the first invalid entry. -/
def sanitizeList : List RawItem → Except String (List SanItem)
  | [] => .ok []
  | item :: rest =>
      match sanitizeOne item with
      | .error e => .error e
      | .ok it =>
          match sanitizeList rest with
          | .error e => .error e
          | .ok its => .ok (it :: its)

/-- `sanitizeItems(products)` (invoices.js lines 44-66): a missing body field
or a non-array value reaches this function as the empty default and takes the
`products array is required` branch, as does an empty array. -/
def sanitizeItems (products : List RawItem) : Except String (List SanItem) :=
  if products = [] then .error "products array is required"
  else sanitizeList products

/-- `calculateShippingCost` (invoices.js lines 29-42).  `manualCost` is the
value of `toNumber(shippingSource.costo ?? .cost ?? .shippingFee ?? null, NaN)`
with `none` for the NaN case (no field supplied, or a non-numeric value). -/
def calculateShippingCost (manualCost : Option ℚ) (items : List SanItem) : ℚ :=
  let totalUnits : ℤ := (items.map (·.cantidad)).sum
  let incremental : ℚ := ((max 0 (totalUnits - 1) : ℤ) : ℚ) * PER_ITEM_SHIPPING_FEE
  let computed : ℚ := BASE_SHIPPING_FEE + incremental
  match manualCost with
  | some c =>
      if 0 ≤ c then roundMoney c else roundMoney (min MAX_SHIPPING_FEE computed)
  | none => roundMoney (min MAX_SHIPPING_FEE computed)

/-- Per-line discounted unit price (invoices.js line 328):
`roundMoney(basePrice * (1 - discountPct / 100))`. -/
def priceAfterDiscount (basePrice discountPct : ℚ) : ℚ :=
  roundMoney (basePrice * (1 - discountPct / 100))

/-- Per-line total (invoices.js line 329):
`roundMoney(priceAfterDiscount * item.quantity)`. -/
def lineTotalOf (basePrice discountPct : ℚ) (quantity : ℤ) : ℚ :=
  roundMoney (priceAfterDiscount basePrice discountPct * quantity)

/-- Tax amount (invoices.js line 343): `roundMoney(subtotal * useTaxRate)`. -/
def taxesOf (subtotal rate : ℚ) : ℚ := roundMoney (subtotal * rate)

/-- Product document (`models/Product`): the fields the invoice route reads.
`stock`, `precio` and `descuento` are read through `toNumber(_, 0)`; the
numeric case is modelled directly. -/
structure Product where
  nombre : String
  precio : ℚ
  descuento : ℚ
  stock : ℚ
deriving DecidableEq, Repr

/-- Projection of a user document stored in `resumen.cliente`
(`pickUserFields`, invoices.js lines 68-78; field-name aliases such as
`firstName`/`lastName`/`phone`/`document` are collapsed into the canonical
field). -/
structure ClienteInfo where
  id : Option String
  nombre : String
  apellido : String
  email : String
  telefono : String
  cedula : String
deriving DecidableEq, Repr

/-- `shippingInfo` object built in the route (invoices.js lines 266-274);
string aliases (`address`, `reference`, `contact`, `instructions`)
collapsed; `fechaEstimada`/`location` kept as optional opaque strings. -/
structure ShippingInfo where
  direccion : String
  referencias : String
  contacto : String
  instrucciones : String
  fechaEstimada : Option String
  location : Option String
  costo : ℚ
deriving DecidableEq, Repr

/-- `paymentInfo` object (invoices.js lines 279-284), aliases collapsed. -/
structure PaymentInfo where
  metodo : String
  metodoPagoNombre : String
  referencia : String
  estado : String
deriving DecidableEq, Repr

/-- `totalsForUi` (invoices.js lines 344-350). -/
structure TotalsUi where
  subtotal : ℚ
  iva : ℚ
  envio : ℚ
  discount : ℚ
  total : ℚ
deriving DecidableEq, Repr

/-- One entry of `invoiceItems` (invoices.js lines 332-340). -/
structure InvoiceItem where
  productId : String
  nombre : String
  quantity : ℤ
  unitPrice : ℚ
  currency : String
  discountPercentage : ℚ
  lineTotal : ℚ
deriving DecidableEq, Repr

/-- One entry of `orderProducts` = `resumen.productos`
(invoices.js lines 352-359). -/
structure ResProd where
  id : String
  nombre : String
  cantidad : ℤ
  precio : ℚ
  subtotal : ℚ
  currency : String
deriving DecidableEq, Repr

/-- The `resumen` snapshot stored on the order (invoices.js lines 361-370). -/
structure Resumen where
  cliente : ClienteInfo
  productos : List ResProd
  totales : TotalsUi
  entrega : ShippingInfo
  pago : PaymentInfo
  invoiceNumber : String
deriving DecidableEq, Repr

/-- One entry of `orderItemsForDb` (invoices.js lines 372-378). -/
structure OrderItem where
  productId : String
  cantidad : ℤ
  unitPrice : ℚ
  lineTotal : ℚ
  currency : String
deriving DecidableEq, Repr

/-- Order document (`models/Order` schema plus the fields the route sets;
`fecha` and the Mongo `_id` are storage/time artifacts and are not part of
the pure model). -/
structure OrderDoc where
  id : String
  userId : Option String
  items : List OrderItem
  resumen : Resumen
  estado : String
deriving DecidableEq, Repr

/-- Entry appended to `user.orders` on successful checkout
(invoices.js lines 394-399; `orderId` and `fecha` are the `_id`/timestamp
artifacts, represented by the order code `codigo` and the snapshot). -/
structure UserOrderEntry where
  codigo : String
  resumen : Resumen
deriving DecidableEq, Repr

/-- User document (`models/User.js`): the fields the checkout touches.
Cart entries are opaque. -/
structure UserDoc where
  nombre : String
  apellido : String
  email : String
  telefono : String
  cedula : String
  cart : List String
  orders : List UserOrderEntry
deriving DecidableEq, Repr

/-- Whole document store: users and products keyed by id string, the order
collection, and the `order-id` Sequence counter (`models/Sequence.js`,
default seed 29; `none` means the counter document does not exist yet). -/
structure Store where
  users : List (String × UserDoc)
  products : List (String × Product)
  orders : List OrderDoc
  seqValue : Option ℤ
deriving DecidableEq, Repr

/-- Key lookup in an association-list collection (`findById` / map lookup). -/
def getKey {α : Type} (k : String) : List (String × α) → Option α
  | [] => none
  | kv :: rest => if kv.1 = k then some kv.2 else getKey k rest

/-- Save of a document under an existing key (`doc.save()` for a fetched
document: replaces the value at that key, keeps everything else). -/
def setKey {α : Type} (k : String) (v : α) : List (String × α) → List (String × α)
  | [] => []
  | kv :: rest => if kv.1 = k then (kv.1, v) :: rest else kv :: setKey k v rest

/-- `getNextOrderId` (Order model, src/unnamed/part_001 lines 13-27): one
`findOneAndUpdate` `$inc` with upsert (a missing counter document is created
with the incremented field only, so its post-increment value is 1 — with
`setDefaultsOnInsert` the schema default 29 is not applied to a field already
named in the update), then a `$set` to the floor 30 when the post-increment
value is below 30.  Returns (new counter value, returned id). -/
def getNextOrderId (seqValue : Option ℤ) : ℤ × ℤ :=
  let incremented := (match seqValue with | some v => v + 1 | none => 1)
  if incremented < 30 then (30, 30) else (incremented, incremented)

/-- Returned values of `n` successive allocations starting from a given
counter state. -/
def allocRun (seqValue : Option ℤ) : ℕ → List ℤ
  | 0 => []
  | n + 1 =>
      let r := getNextOrderId seqValue
      r.2 :: allocRun (some r.1) n

/-- Error taxonomy surfaced by `router.post('/')`: the early `res.status(400)`
returns (`invalidInput`), the buyer 404, and the errors thrown inside the
transaction (`err.status = 404` for missing products, `400` for stock). -/
inductive CheckoutErr
  | invalidInput (msg : String)
  | userNotFound
  | productsNotFound (missing : List String)
  | productNotFound (productId : String)
  | insufficientStock (label : String)
deriving DecidableEq, Repr

/-- HTTP status attached to each error by the route handler. -/
def CheckoutErr.status : CheckoutErr → ℕ
  | .invalidInput _ => 400
  | .userNotFound => 404
  | .productsNotFound _ => 404
  | .productNotFound _ => 404
  | .insufficientStock _ => 400

/-- The `for (const item of sanitizedItems)` loop of the transaction
(invoices.js lines 309-341): per line, look the product up (the map holds the
live documents, so an earlier decrement of the same product is visible),
check `available < item.quantity`, decrement and save the stock, price the
line, accumulate the rounded subtotal and push the invoice line.  Returns the
updated product collection, the invoice lines and the subtotal. -/
def processItems (currency : String) :
    List (String × Product) → List SanItem → List InvoiceItem → ℚ →
      Except CheckoutErr (List (String × Product) × List InvoiceItem × ℚ)
  | prods, [], acc, subtotal => .ok (prods, acc, subtotal)
  | prods, item :: rest, acc, subtotal =>
      match getKey item.productId prods with
      | none => .error (.productNotFound item.productId)
      | some product =>
          let available := product.stock
          if available < (item.cantidad : ℚ) then
            .error (.insufficientStock (jsOrS product.nombre item.productId))
          else
            let prods' := setKey item.productId { product with stock := available - item.cantidad } prods
            let unitPrice := priceAfterDiscount product.precio product.descuento
            let lineTotal := lineTotalOf product.precio product.descuento item.cantidad
            processItems currency prods' rest
              (acc ++ [{ productId := item.productId, nombre := product.nombre,
                         quantity := item.cantidad, unitPrice := unitPrice,
                         currency := currency,
                         discountPercentage := product.descuento,
                         lineTotal := lineTotal }])
              (roundMoney (subtotal + lineTotal))

/-- Body of `session.withTransaction` (invoices.js lines 292-437): batch
existence check (`Product.find({_id: {$in: ids}})` returns one document per
DISTINCT existing id, compared against the number of requested lines), the
per-line loop, totals, `resumen` snapshot, order-id allocation through the
Order pre-save hook, order insertion, and the buyer update.  Returns the
store as committed together with the created order. -/
def checkoutTxn (store : Store) (sanItems : List SanItem) (attachedUser : Option String)
    (invoiceUser : ClienteInfo) (shippingInfo : ShippingInfo) (paymentInfo : PaymentInfo)
    (shippingCost : ℚ)
    (discountValue : ℚ) (useTaxRate : ℚ) (currency : String) (invoiceNumber : String) :
    Except CheckoutErr (Store × OrderDoc) :=
  let ids := sanItems.map (·.productId)
  let foundCount := (ids.dedup.filter (fun pid => (getKey pid store.products).isSome)).length
  if foundCount ≠ sanItems.length then
    .error (.productsNotFound
      ((sanItems.filter (fun it => (getKey it.productId store.products).isNone)).map (·.productId)))
  else
    match processItems currency store.products sanItems [] 0 with
    | .error e => .error e
    | .ok (prods', invoiceItems, subtotal) =>
        let taxes := taxesOf subtotal useTaxRate
        let totalsForUi : TotalsUi :=
          { subtotal := subtotal, iva := taxes, envio := shippingCost,
            discount := discountValue,
            total := roundMoney (max 0 (subtotal + taxes + shippingCost - discountValue)) }
        let orderProducts : List ResProd := invoiceItems.map (fun line =>
          { id := line.productId, nombre := line.nombre, cantidad := line.quantity,
            precio := line.unitPrice, subtotal := line.lineTotal, currency := line.currency })
        let resumen : Resumen :=
          { cliente := invoiceUser, productos := orderProducts, totales := totalsForUi,
            entrega := shippingInfo, pago := paymentInfo, invoiceNumber := invoiceNumber }
        let orderItemsForDb : List OrderItem := invoiceItems.map (fun line =>
          { productId := line.productId, cantidad := line.quantity,
            unitPrice := line.unitPrice, lineTotal := line.lineTotal, currency := line.currency })
        let alloc := getNextOrderId store.seqValue
        let orderDoc : OrderDoc :=
          { id := toString alloc.2, userId := attachedUser, items := orderItemsForDb,
            resumen := resumen, estado := "confirmado" }
        let usersAfter :=
          match attachedUser with
          | none => store.users
          | some uid =>
              match getKey uid store.users with
              | none => store.users
              | some u =>
                  setKey uid
                    { u with orders := u.orders ++ [{ codigo := orderDoc.id, resumen := resumen }],
                             cart := [] } store.users
        .ok ({ users := usersAfter, products := prods', orders := store.orders ++ [orderDoc],
               seqValue := some alloc.1 }, orderDoc)

/-- Inline buyer snapshot (`body.user`); the name aliases
`nombre || firstName || name` are collapsed into `nombre` and an empty string
stands for a falsy/absent field. -/
structure InlineUser where
  idField : Option String
  nombre : String
  apellido : String
  email : String
  telefono : String
  cedula : String
deriving DecidableEq, Repr

/-- Checkout request body (`POST /invoices`), with JavaScript field-name
alias chains collapsed as documented on each field.  `taxRate` is `some r`
only when `Number.isFinite(body.taxRate)`; `shippingManualCost` is the value
of `shipping.costo ?? .cost ?? .shippingFee` when numeric; `discount` is
`toNumber(body.discount ?? body.totals?.discount ?? 0, 0)`. -/
structure Body where
  products : List RawItem
  userId : Option String
  user : Option InlineUser
  taxRate : Option ℚ
  currency : Option String
  shippingManualCost : Option ℚ
  shipDireccion : String
  shipReferencias : String
  shipContacto : String
  shipInstrucciones : String
  shipFechaEstimada : Option String
  shipLocation : Option String
  discount : ℚ
  payMetodo : String
  payMetodoNombre : String
  payReferencia : String
  payEstado : String
deriving DecidableEq, Repr

/-- `pickUserFields` (invoices.js lines 68-78) applied to a stored user
document found by `findById(uid)`: its `_id` is the key it was found under. -/
def pickUserFields (uid : String) (u : UserDoc) : ClienteInfo :=
  { id := some uid, nombre := u.nombre, apellido := u.apellido, email := u.email,
    telefono := u.telefono, cedula := u.cedula }

/-- `pickUserFields` applied to the inline `body.user` object (no `_id`, so
the `userDoc.id || undefined` branch is taken). -/
def pickInlineUser (iu : InlineUser) : ClienteInfo :=
  { id := match iu.idField with
          | some s => if s = "" then none else some s
          | none => none,
    nombre := iu.nombre, apellido := iu.apellido, email := iu.email,
    telefono := iu.telefono, cedula := iu.cedula }

/-- Uppercase a string (JS `String.prototype.toUpperCase()` for ASCII). -/
def jsUpper (s : String) : String := ⟨s.data.map Char.toUpper⟩

/-- The `POST /invoices` handler (invoices.js lines 239-477) up to the
transaction result, as one pure function: items are sanitized first (line
248), then the buyer is resolved (lines 254-262), shipping / discount /
payment are assembled, and the transaction runs.  `invoiceNumber` stands for
the `INV-<millis>-<3digits>` token of `buildInvoiceNumber()`, which depends
on the clock and `Math.random` and is passed in as an oracle. -/
def checkout (store : Store) (b : Body) (invoiceNumber : String) :
    Except CheckoutErr (Store × OrderDoc) :=
  let useTaxRate := b.taxRate.getD DEFAULT_TAX_RATE
  let invoiceCurrency :=
    match b.currency with
    | some c => if jsTrim c = "" then DEFAULT_CURRENCY else jsUpper (jsTrim c)
    | none => DEFAULT_CURRENCY
  match sanitizeItems b.products with
  | .error itemsError => .error (.invalidInput itemsError)
  | .ok sanitizedItems =>
      let buyer : Except CheckoutErr (Option String × ClienteInfo) :=
        match (match b.userId with
               | some s => if s = "" then none else some s
               | none => none) with
        | some uid =>
            match getKey uid store.users with
            | none => .error .userNotFound
            | some u => .ok (some uid, pickUserFields uid u)
        | none =>
            match b.user with
            | some iu =>
                if iu.email ≠ "" ∧ iu.nombre ≠ "" then .ok (none, pickInlineUser iu)
                else .error (.invalidInput "Provide userId or user object with nombre and email")
            | none => .error (.invalidInput "Provide userId or user object with nombre and email")
      match buyer with
      | .error e => .error e
      | .ok (attachedUser, invoiceUser) =>
          let shippingCost := calculateShippingCost b.shippingManualCost sanitizedItems
          let shippingInfo : ShippingInfo :=
            { direccion := b.shipDireccion, referencias := b.shipReferencias,
              contacto := b.shipContacto, instrucciones := b.shipInstrucciones,
              fechaEstimada := b.shipFechaEstimada, location := b.shipLocation,
              costo := shippingCost }
          let discountValue := max 0 (roundMoney b.discount)
          let paymentInfo : PaymentInfo :=
            { metodo := jsOrS b.payMetodo "no-especificado",
              metodoPagoNombre := jsOrS b.payMetodoNombre (jsOrS b.payMetodo "no-especificado"),
              referencia := b.payReferencia,
              estado := jsOrS b.payEstado "pagado" }
          checkoutTxn store sanitizedItems attachedUser invoiceUser shippingInfo paymentInfo
            shippingCost discountValue useTaxRate invoiceCurrency invoiceNumber

/-- Observable outcome of one checkout call: `withTransaction` commits the
session's writes on success and aborts them all on any exception, so a
failing call leaves the store exactly as it was. -/
def checkoutRun (store : Store) (b : Body) (invoiceNumber : String) :
    Store × Except CheckoutErr OrderDoc :=
  match checkout store b invoiceNumber with
  | .error e => (store, .error e)
  | .ok (store', orderDoc) => (store', .ok orderDoc)

/-- Value stored in a schemaless (`Mixed`) order field: the order schema
declares `items: Array` and `resumen: Object`, and the generic
`POST /orders` route (src/unnamed/part_002 lines 715-736) persists arbitrary
payloads into them, so a rendered order's entries can hold numbers, strings
or null/absent values. -/
inductive JVal
  | num (q : ℚ)
  | str (s : String)
  | null
deriving DecidableEq, Repr

/-- JavaScript truthiness of a stored value (0, the empty string and
null/undefined are falsy). -/
def JVal.truthy : JVal → Bool
  | .num q => q ≠ 0
  | .str s => s ≠ ""
  | .null => false

/-- JavaScript `a || b` on stored values. -/
def jOr (a b : JVal) : JVal := if a.truthy then a else b

/-- JavaScript `Number(v)` where it is defined without string parsing:
numbers pass through and null/undefined coerces to 0; `none` is the NaN
outcome (numeric-string parsing is not modelled — no claim depends on it, a
non-numeric string coerces to NaN anyway). -/
def JVal.toNumberOpt : JVal → Option ℚ
  | .num q => some q
  | .str _ => none
  | .null => some 0

/-- `toNumber(value, fallback)` (invoices.js lines 15-18). -/
def toNumberJ (v : JVal) (fallback : ℚ) : ℚ := v.toNumberOpt.getD fallback

/-- Decimal representation of an integer (used for JS template interpolation
of numbers; JS decimal rendering of non-integral numbers is not modelled —
no claim interpolates a non-integral number outside `toFixed`). -/
def jsNumRepr (q : ℚ) : String :=
  if q.den = 1 then toString q.num else toString q.num ++ "/" ++ toString q.den

/-- JS template interpolation `${v}` of a stored value. -/
def JVal.interp : JVal → String
  | .num q => jsNumRepr q
  | .str s => s
  | .null => "null"

/-- JS `*` on stored values (numeric coercion; any NaN operand yields NaN,
which is modelled by `null` — they agree on truthiness and on the
`toNumber` fallback, the only two ways the result is consumed). -/
def jMul (a b : JVal) : JVal :=
  match a.toNumberOpt, b.toNumberOpt with
  | some x, some y => .num (x * y)
  | _, _ => .null

/-- Replacement for one character in `escapeHtml`
(invoices.js lines 80-83). -/
def escChar (c : Char) : String :=
  if c = '&' then "&amp;"
  else if c = '<' then "&lt;"
  else if c = '>' then "&gt;"
  else if c = Char.ofNat 34 then "&quot;"
  else if c = Char.ofNat 39 then "&#39;"
  else String.singleton c

/-- `escapeHtml` on a string (invoices.js lines 80-83): the `replace` call
concatenates the per-character replacements; the `!str` guard for strings
coincides with mapping over the empty character list. -/
def escapeHtml (s : String) : String := ⟨s.data.flatMap (fun c => (escChar c).data)⟩

/-- `escapeHtml` applied to a stored value: `if (!str) return ''` on a falsy
value, otherwise escape `String(str)`. -/
def escapeHtmlJ (v : JVal) : String := if v.truthy then escapeHtml v.interp else ""

/-- Digits-and-dot rendering of a cent count (`n` cents as `u.vw`). -/
def centsRepr (n : ℕ) : String :=
  toString (n / 100) ++ "." ++
    (if n % 100 < 10 then "0" ++ toString (n % 100) else toString (n % 100))

/-- JavaScript `q.toFixed(2)` for a rational: round to the nearest cent
(the astonishing binary-double tie behavior of `toFixed` is not modelled; no
claim exercises a tie). -/
def toFixed2 (q : ℚ) : String :=
  let c : ℤ := ⌊q * 100 + 1/2⌋
  if c < 0 then "-" ++ centsRepr c.natAbs else centsRepr c.natAbs

/-- `formatMoney` (invoices.js lines 85-87): `toNumber(value, 0).toFixed(2)`. -/
def formatMoney (v : JVal) : String := toFixed2 (toNumberJ v 0)

/-- Entry of a stored `resumen.productos` / legacy `productos` array as the
renderer reads it (each field is schemaless). -/
structure RProd where
  nombre : JVal
  cantidad : JVal
  quantity : JVal
  precio : JVal
  unitPrice : JVal
  subtotal : JVal
  lineTotal : JVal
deriving DecidableEq, Repr

/-- Entry of a stored legacy `items` array as the renderer reads it. -/
structure RItem where
  nombre : JVal
  productName : JVal
  cantidad : JVal
  quantity : JVal
  precio : JVal
  unitPrice : JVal
  lineTotal : JVal
deriving DecidableEq, Repr

/-- Normalized line shape produced by `normalizeProducts`. -/
structure NProd where
  nombre : JVal
  cantidad : JVal
  precio : JVal
  subtotal : JVal
deriving DecidableEq, Repr

/-- Stored client block (string fields read through `|| ''` / `|| 'N/D'`
chains, so the empty string doubles as an absent field). -/
structure RCliente where
  nombre : String
  apellido : String
  email : String
  telefono : String
deriving DecidableEq, Repr

/-- Stored delivery block as the renderer reads it. -/
structure REntrega where
  direccion : String
  contacto : String
  telefono : String
  referencias : String
deriving DecidableEq, Repr

/-- Stored payment block as the renderer reads it. -/
structure RPago where
  metodoPagoNombre : String
  metodo : String
  estado : String
  referencia : String
deriving DecidableEq, Repr

/-- Stored totals block (`resumen.totales` / legacy `totales`), with the
alias fields the `??` chains consult; `none` is an absent field. -/
structure RTotales where
  subtotal : Option ℚ
  iva : Option ℚ
  taxes : Option ℚ
  tax : Option ℚ
  envio : Option ℚ
  shipping : Option ℚ
  discount : Option ℚ
  total : Option ℚ
deriving DecidableEq, Repr

/-- Stored order as `GET /invoices/:id` loads it (`Order.findById(...)`):
the shapes `renderInvoiceHtml` probes, with `none`/`[]` for absent fields.
`fecha` holds the `toLocaleString`-formatted date when the document has one
(date formatting is a locale effect and the formatted text is treated as
opaque). -/
structure RenderOrder where
  resumenProductos : List RProd
  productos : List RProd
  items : List RItem
  resumenCliente : Option RCliente
  cliente : Option RCliente
  resumenEntrega : Option REntrega
  entrega : Option REntrega
  resumenPago : Option RPago
  pago : Option RPago
  resumenTotales : Option RTotales
  totales : Option RTotales
  resumenInvoiceNumber : String
  numeroFactura : String
  idStr : String
  fecha : Option String
deriving DecidableEq, Repr

/-- Mapper of the two product-shaped branches of `normalizeProducts`
(invoices.js lines 91-96 and 100-105), with the 1-based index for the
`Producto ${idx + 1}` fallback name. -/
def normalizeProdEntry (idx : ℕ) (p : RProd) : NProd :=
  { nombre := jOr p.nombre (.str ("Producto " ++ toString (idx + 1))),
    cantidad := jOr p.cantidad (jOr p.quantity (.num 0)),
    precio := jOr p.precio (jOr p.unitPrice (.num 0)),
    subtotal := jOr p.subtotal (jOr p.lineTotal (.num 0)) }

/-- Index-threading map for the product-shaped branches. -/
def normalizeProdList : ℕ → List RProd → List NProd
  | _, [] => []
  | i, p :: rest => normalizeProdEntry i p :: normalizeProdList (i + 1) rest

/-- Mapper of the `items` branch of `normalizeProducts`
(invoices.js lines 109-114). -/
def normalizeItemEntry (idx : ℕ) (it : RItem) : NProd :=
  { nombre := jOr it.nombre (jOr it.productName (.str ("Producto " ++ toString (idx + 1)))),
    cantidad := jOr it.cantidad (jOr it.quantity (.num 0)),
    precio := jOr it.precio (jOr it.unitPrice (.num 0)),
    subtotal := jOr it.lineTotal (jMul (jOr it.unitPrice (.num 0)) (jOr it.cantidad (.num 0))) }

/-- Index-threading map for the `items` branch. -/
def normalizeItemList : ℕ → List RItem → List NProd
  | _, [] => []
  | i, it :: rest => normalizeItemEntry i it :: normalizeItemList (i + 1) rest

/-- `normalizeProducts` (invoices.js lines 89-118): ordered shape matchers
over `resumen.productos`, legacy `productos`, then `items`. -/
def normalizeProducts (o : RenderOrder) : List NProd :=
  if o.resumenProductos ≠ [] then normalizeProdList 0 o.resumenProductos
  else if o.productos ≠ [] then normalizeProdList 0 o.productos
  else if o.items ≠ [] then normalizeItemList 0 o.items
  else []

/-- `normalizeTotals` (invoices.js lines 120-134). -/
def normalizeTotals (o : RenderOrder) (productos : List NProd) : TotalsUi :=
  let baseTotals : RTotales :=
    match o.resumenTotales with
    | some t => t
    | none => (o.totales).getD ⟨none, none, none, none, none, none, none, none⟩
  let subtotal := baseTotals.subtotal.getD
    ((productos.map (fun prod => toNumberJ prod.subtotal 0)).sum)
  let iva := (baseTotals.iva.orElse (fun _ => (baseTotals.taxes.orElse (fun _ => baseTotals.tax)))).getD 0
  let envio := (baseTotals.envio.orElse (fun _ => baseTotals.shipping)).getD 0
  let discount := baseTotals.discount.getD 0
  let total := baseTotals.total.getD (roundMoney (subtotal + iva + envio - discount))
  { subtotal := roundMoney subtotal, iva := roundMoney iva, envio := roundMoney envio,
    discount := roundMoney (max 0 discount), total := roundMoney total }

/-- One row of the product table (invoices.js lines 145-151): the product
name goes through `escapeHtml`, the quantity is interpolated verbatim, the
two money columns go through `formatMoney`. -/
def productRowHtml (item : NProd) : String :=
  "<tr>\n        <td>" ++ escapeHtmlJ item.nombre
    ++ "</td>\n        <td class=\x22text-center\x22>" ++ item.cantidad.interp
    ++ "</td>\n        <td class=\x22text-right\x22>$" ++ formatMoney item.precio
    ++ "</td>\n        <td class=\x22text-right\x22>$" ++ formatMoney item.subtotal
    ++ "</td>\n      </tr>"

/-- Joined rows with the `Sin productos` fallback for an empty join
(invoices.js line 152). -/
def productRowsHtml (productos : List NProd) : String :=
  jsOrS (String.join (productos.map productRowHtml))
    "<tr><td colspan=\x224\x22 class=\x22text-center\x22>Sin productos</td></tr>"

/-- Static `<style>` block of the template (invoices.js lines 159-174). -/
def styleBlock : String :=
  "  <style>\n    body \x7b font-family: Arial, sans-serif; margin: 20px; color: #222; \x7d\n"
    ++ "    .header \x7b text-align: center; border-bottom: 2px solid #007bff; padding-bottom: 20px; margin-bottom: 20px; \x7d\n"
    ++ "    .logo \x7b color: #007bff; font-size: 24px; font-weight: bold; \x7d\n"
    ++ "    table \x7b width: 100%; border-collapse: collapse; margin-bottom: 20px; \x7d\n"
    ++ "    th, td \x7b border: 1px solid #ddd; padding: 8px; \x7d\n"
    ++ "    th \x7b background-color: #f8f9fa; \x7d\n"
    ++ "    .text-right \x7b text-align: right; \x7d\n"
    ++ "    .text-center \x7b text-align: center; \x7d\n"
    ++ "    .totals \x7b width: 320px; margin-left: auto; \x7d\n"
    ++ "    .totals td \x7b border: none; \x7d\n"
    ++ "    .totals tr \x7b border-bottom: 1px solid #eee; \x7d\n"
    ++ "    .totals tr:last-child \x7b border-bottom: none; \x7d\n"
    ++ "    .totals .total-final \x7b background: #e8f5e8; font-weight: bold; \x7d\n"
    ++ "    .section-title \x7b margin-top: 30px; font-size: 18px; border-bottom: 1px solid #ddd; padding-bottom: 5px; \x7d\n"
    ++ "  </style>\n"

/-- `renderInvoiceHtml` (invoices.js lines 136-237).  `nowStr` stands for
`new Date().toLocaleString('es-EC')`, the clock-dependent fallback used when
the stored order has no `fecha`. -/
def renderInvoiceHtml (o : RenderOrder) (nowStr : String) : String :=
  let productos := normalizeProducts o
  let totales := normalizeTotals o productos
  let cliente : RCliente := ((o.resumenCliente).orElse (fun _ => o.cliente)).getD ⟨"", "", "", ""⟩
  let entrega : REntrega := ((o.resumenEntrega).orElse (fun _ => o.entrega)).getD ⟨"", "", "", ""⟩
  let pago : RPago := ((o.resumenPago).orElse (fun _ => o.pago)).getD ⟨"", "", "", ""⟩
  let numeroFactura := jsOrS o.resumenInvoiceNumber (jsOrS o.numeroFactura o.idStr)
  let fecha := (o.fecha).getD nowStr
  let productRows := productRowsHtml productos
  "<!DOCTYPE html>\n<html lang=\x22es\x22>\n<head>\n  <meta charset=\x22UTF-8\x22>\n"
    ++ "  <title>Factura " ++ escapeHtml numeroFactura ++ "</title>\n"
    ++ styleBlock
    ++ "</head>\n<body>\n  <div class=\x22header\x22>\n    <div class=\x22logo\x22>Tatylu, Viveres</div>\n"
    ++ "    <p>Viveres de calidad</p>\n    <p>Avenida Maldonado S29-106, Quito | +593 967 967 369</p>\n  </div>\n\n"
    ++ "  <h2>Factura #" ++ escapeHtml numeroFactura ++ "</h2>\n"
    ++ "  <p><strong>Fecha:</strong> " ++ escapeHtml fecha ++ "</p>\n"
    ++ "  <p><strong>Cliente:</strong> "
    ++ escapeHtml (jsOrS (jsTrim (jsOrS cliente.nombre "" ++ " " ++ jsOrS cliente.apellido "")) "N/D")
    ++ "</p>\n"
    ++ "  <p><strong>Email:</strong> " ++ escapeHtml (jsOrS cliente.email "N/D") ++ "</p>\n"
    ++ "  <p><strong>Teléfono:</strong> " ++ escapeHtml (jsOrS cliente.telefono "N/D") ++ "</p>\n\n"
    ++ "  <h3 class=\x22section-title\x22>Productos</h3>\n  <table>\n    <thead>\n      <tr>\n"
    ++ "        <th>Producto</th>\n        <th class=\x22text-center\x22>Cantidad</th>\n"
    ++ "        <th class=\x22text-right\x22>Precio unit.</th>\n        <th class=\x22text-right\x22>Subtotal</th>\n"
    ++ "      </tr>\n    </thead>\n    <tbody>\n      " ++ productRows ++ "\n    </tbody>\n  </table>\n\n"
    ++ "  <table class=\x22totals\x22>\n    <tr>\n      <td>Subtotal:</td>\n      <td class=\x22text-right\x22>$"
    ++ formatMoney (.num totales.subtotal) ++ "</td>\n    </tr>\n    <tr>\n      <td>IVA (15%):</td>\n"
    ++ "      <td class=\x22text-right\x22>$" ++ formatMoney (.num totales.iva) ++ "</td>\n    </tr>\n"
    ++ "    <tr>\n      <td>Envío:</td>\n      <td class=\x22text-right\x22>$"
    ++ formatMoney (.num totales.envio) ++ "</td>\n    </tr>\n    "
    ++ (if totales.discount ≠ 0 then
          "<tr><td>Descuento:</td><td class=\x22text-right\x22>-$"
            ++ formatMoney (.num totales.discount) ++ "</td></tr>"
        else "")
    ++ "\n    <tr class=\x22total-final\x22>\n      <td>Total:</td>\n      <td class=\x22text-right\x22>$"
    ++ formatMoney (.num totales.total) ++ "</td>\n    </tr>\n  </table>\n\n"
    ++ "  <div class=\x22section-title\x22>Entrega</div>\n"
    ++ "  <p><strong>Dirección:</strong> " ++ escapeHtml (jsOrS entrega.direccion "N/D") ++ "</p>\n"
    ++ "  <p><strong>Contacto:</strong> "
    ++ escapeHtml (jsOrS entrega.contacto (jsOrS entrega.telefono "N/D")) ++ "</p>\n"
    ++ "  <p><strong>Referencias:</strong> " ++ escapeHtml (jsOrS entrega.referencias "N/D") ++ "</p>\n\n"
    ++ "  <div class=\x22section-title\x22>Pago</div>\n"
    ++ "  <p><strong>Método:</strong> "
    ++ escapeHtml (jsOrS pago.metodoPagoNombre (jsOrS pago.metodo "N/D")) ++ "</p>\n"
    ++ "  <p><strong>Estado:</strong> " ++ escapeHtml (jsOrS pago.estado "pagado") ++ "</p>\n"
    ++ "  <p><strong>Referencia:</strong> " ++ escapeHtml (jsOrS pago.referencia "N/D") ++ "</p>\n\n"
    ++ "  <p style=\x22margin-top:40px; text-align:center; font-size:12px; color:#666;\x22>Gracias por tu compra en Tatylu, Viveres.</p>\n</body>\n</html>"

/-- Prefix test on character lists (used by the substring search). -/
def leadsWith : List Char → List Char → Bool
  | [], _ => true
  | _ :: _, [] => false
  | a :: as, b :: bs => a = b && leadsWith as bs

/-- Naive substring search on character lists. -/
def hasSub (pat : List Char) : List Char → Bool
  | [] => leadsWith pat []
  | s@(_ :: rest) => leadsWith pat s || hasSub pat rest

/-! Concrete fixtures used by witnesses and counterexamples. -/

/-- A syntactically valid ObjectId string. -/
def pidA : String := "aaaaaaaaaaaaaaaaaaaaaaaa"

/-- A second valid ObjectId string, used as a missing product. -/
def pidB : String := "bbbbbbbbbbbbbbbbbbbbbbbb"

/-- Sample product: price 10, discount 10%, stock 5. -/
def prodA : Product := { nombre := "Cola", precio := 10, descuento := 10, stock := 5 }

/-- Sample stored buyer with a non-empty cart. -/
def userU : UserDoc :=
  { nombre := "Ana", apellido := "Diaz", email := "a@b.c",
    telefono := "", cedula := "", cart := ["x"], orders := [] }

/-- Sample store: one user, one product, no orders, no counter document. -/
def store0 : Store :=
  { users := [("u1", userU)], products := [(pidA, prodA)],
    orders := [], seqValue := none }

/-- Sample checkout body: three units of `pidA` bought by the stored user. -/
def body0 : Body :=
  { products := [⟨some pidA, some 3⟩], userId := some "u1",
    user := none, taxRate := none, currency := none, shippingManualCost := none,
    shipDireccion := "", shipReferencias := "", shipContacto := "", shipInstrucciones := "",
    shipFechaEstimada := none, shipLocation := none, discount := 0,
    payMetodo := "", payMetodoNombre := "", payReferencia := "", payEstado := "" }

/-- The order committed by `checkoutRun store0 body0 "INV-1-001"`. -/
def order30 : OrderDoc :=
  { id := "30", userId := some "u1",
    items := [{ productId := pidA, cantidad := 3, unitPrice := 9, lineTotal := 27,
                currency := "USD" }],
    resumen :=
      { cliente := { id := some "u1", nombre := "Ana", apellido := "Diaz", email := "a@b.c",
                     telefono := "", cedula := "" },
        productos := [{ id := pidA, nombre := "Cola", cantidad := 3, precio := 9,
                        subtotal := 27, currency := "USD" }],
        totales := { subtotal := 27, iva := 81/20, envio := 9/2, discount := 0,
                     total := 711/20 },
        entrega := { direccion := "", referencias := "", contacto := "", instrucciones := "",
                     fechaEstimada := none, location := none, costo := 9/2 },
        pago := { metodo := "no-especificado", metodoPagoNombre := "no-especificado",
                  referencia := "", estado := "pagado" },
        invoiceNumber := "INV-1-001" },
    estado := "confirmado" }

/-! Helper lemmas. -/

theorem roundMoney_nonneg {q : ℚ} (h : 0 ≤ q) : 0 ≤ roundMoney q := by
  unfold roundMoney
  have h1 : (0:ℤ) ≤ ⌊q * 100 + 1/2⌋ := Int.floor_nonneg.2 (by positivity)
  have h2 : (0:ℚ) ≤ (⌊q * 100 + 1/2⌋ : ℚ) := by exact_mod_cast h1
  positivity

theorem mem_setKey {α : Type} {k : String} {v : α} :
    ∀ {l : List (String × α)} {kv : String × α}, kv ∈ setKey k v l → kv.2 = v ∨ kv ∈ l
  | [], kv, h => by simp [setKey] at h
  | a :: rest, kv, h => by
      rw [setKey] at h
      by_cases hk : a.1 = k
      · rw [if_pos hk] at h
        rcases List.mem_cons.1 h with h1 | h1
        · exact .inl (by rw [h1])
        · exact .inr (List.mem_cons_of_mem _ h1)
      · rw [if_neg hk] at h
        rcases List.mem_cons.1 h with h1 | h1
        · exact .inr (by rw [h1]; exact List.mem_cons_self _ _)
        · rcases mem_setKey h1 with h2 | h2
          · exact .inl h2
          · exact .inr (List.mem_cons_of_mem _ h2)

theorem processItems_nonneg {currency : String} :
    ∀ (items : List SanItem) (prods : List (String × Product)) (acc : List InvoiceItem)
      (st : ℚ) (pr : List (String × Product)) (ii : List InvoiceItem) (st2 : ℚ),
      (∀ kv ∈ prods, 0 ≤ (kv.2).stock) →
      processItems currency prods items acc st = .ok (pr, ii, st2) →
      ∀ kv ∈ pr, 0 ≤ (kv.2).stock := by
  intro items
  induction items with
  | nil =>
      intro prods acc st pr ii st2 hnn h kv hkv
      simp only [processItems, Except.ok.injEq, Prod.mk.injEq] at h
      obtain ⟨h1, -, -⟩ := h
      exact hnn kv (h1 ▸ hkv)
  | cons item rest ih =>
      intro prods acc st pr ii st2 hnn h kv hkv
      simp only [processItems] at h
      split at h
      · simp at h
      · split at h
        · simp at h
        · next hs =>
            refine ih _ _ _ _ _ _ ?_ h kv hkv
            intro kv' hkv'
            rcases mem_setKey hkv' with h2 | h2
            · rw [h2]
              exact sub_nonneg.2 (not_lt.1 hs)
            · exact hnn kv' h2

theorem sanitizeOne_ok_nonneg {item : RawItem} {it : SanItem}
    (h : sanitizeOne item = .ok it) : 0 ≤ it.cantidad := by
  simp only [sanitizeOne] at h
  split at h
  · exact absurd h (by simp)
  · split at h
    · exact absurd h (by simp)
    · split at h
      · exact absurd h (by simp)
      · split at h
        · exact absurd h (by simp)
        · next hq =>
            simp only [Except.ok.injEq] at h
            rw [← h]
            exact Int.floor_nonneg.2 (le_of_lt (lt_of_not_le hq))

theorem sanitizeList_nonneg :
    ∀ {raw : List RawItem} {its : List SanItem}, sanitizeList raw = .ok its →
      ∀ it ∈ its, 0 ≤ it.cantidad
  | [], its, h => by
      simp only [sanitizeList, Except.ok.injEq] at h
      intro it hit
      rw [← h] at hit
      simp at hit
  | item :: rest, its, h => by
      rw [sanitizeList] at h
      rcases h1 : sanitizeOne item with e | it0
      · rw [h1] at h; simp at h
      · rw [h1] at h
        rcases h2 : sanitizeList rest with e | its0
        · rw [h2] at h; simp at h
        · rw [h2] at h
          simp only [Except.ok.injEq] at h
          intro it hit
          rw [← h] at hit
          rcases List.mem_cons.1 hit with h3 | h3
          · exact h3 ▸ sanitizeOne_ok_nonneg h1
          · exact sanitizeList_nonneg h2 it h3

theorem getNextOrderId_fst_eq_snd (s : Option ℤ) :
    (getNextOrderId s).1 = (getNextOrderId s).2 := by
  rcases s with - | v <;> simp only [getNextOrderId] <;> split <;> rfl

theorem getNextOrderId_some_gt (v : ℤ) : v < (getNextOrderId (some v)).2 := by
  simp only [getNextOrderId]
  split
  · show v < (30:ℤ)
    omega
  · show v < v + 1
    omega

theorem allocRun_mem_gt : ∀ (n : ℕ) (v : ℤ) (x : ℤ), x ∈ allocRun (some v) n → v < x := by
  intro n
  induction n with
  | zero => intro v x hx; simp [allocRun] at hx
  | succ m ih =>
      intro v x hx
      rw [allocRun] at hx
      rcases List.mem_cons.1 hx with h1 | h1
      · exact h1 ▸ getNextOrderId_some_gt v
      · have h2 := ih _ _ h1
        calc v < (getNextOrderId (some v)).2 := getNextOrderId_some_gt v
          _ = (getNextOrderId (some v)).1 := (getNextOrderId_fst_eq_snd _).symm
          _ < x := h2

theorem allocRun_pairwise : ∀ (s : Option ℤ) (n : ℕ),
    List.Pairwise (· < ·) (allocRun s n) := by
  intro s n
  induction n generalizing s with
  | zero => simp [allocRun]
  | succ m ih =>
      rw [allocRun]
      refine List.pairwise_cons.2 ⟨?_, ih _⟩
      intro x hx
      have h1 := allocRun_mem_gt m (getNextOrderId s).1 x hx
      rw [getNextOrderId_fst_eq_snd] at h1
      exact h1

theorem checkoutTxn_ok_inv {store : Store} {sanItems : List SanItem}
    {attached : Option String} {invU : ClienteInfo} {shipInfo : ShippingInfo}
    {payInfo : PaymentInfo} {shipCost disc rate : ℚ} {curr inv : String}
    {s' : Store} {o : OrderDoc}
    (h : checkoutTxn store sanItems attached invU shipInfo payInfo shipCost disc rate curr inv
          = .ok (s', o)) :
    ∃ pr ii st, processItems curr store.products sanItems [] 0 = .ok (pr, ii, st) ∧
      s'.products = pr ∧ s'.orders = store.orders ++ [o] ∧
      o.resumen.totales =
        { subtotal := st, iva := taxesOf st rate, envio := shipCost, discount := disc,
          total := roundMoney (max 0 (st + taxesOf st rate + shipCost - disc)) } := by
  simp only [checkoutTxn] at h
  split at h
  · exact absurd h (by simp)
  · split at h
    · exact absurd h (by simp)
    · next pr ii st heq =>
        simp only [Except.ok.injEq, Prod.mk.injEq] at h
        obtain ⟨h1, h2⟩ := h
        exact ⟨pr, ii, st, heq, by rw [← h1], by rw [← h1, ← h2], by rw [← h2]⟩

theorem checkout_ok_inv {store : Store} {b : Body} {inv : String}
    {s' : Store} {o : OrderDoc} (h : checkout store b inv = .ok (s', o)) :
    s'.orders = store.orders ++ [o] ∧
    (∃ sanItems curr pr ii st, sanitizeItems b.products = .ok sanItems ∧
        processItems curr store.products sanItems [] 0 = .ok (pr, ii, st) ∧
        s'.products = pr) ∧
    (∃ st tax ship dv, o.resumen.totales =
        { subtotal := st, iva := tax, envio := ship, discount := dv,
          total := roundMoney (max 0 (st + tax + ship - dv)) }) := by
  simp only [checkout] at h
  split at h
  · exact absurd h (by simp)
  · next sanItems hsan =>
      split at h
      · exact absurd h (by simp)
      · next attached invU hbuyer =>
          obtain ⟨pr, ii, st, heq, hp, ho, ht⟩ := checkoutTxn_ok_inv h
          refine ⟨ho, ⟨sanItems, _, pr, ii, st, hsan, heq, hp⟩, ?_⟩
          exact ⟨st, _, _, _, ht⟩

/-- C1: on any failing checkout the transaction rolls back — products, orders
and users are exactly the pre-attempt values — and on any successful checkout
exactly one order is appended to the order collection. -/
theorem checkout_transaction_atomicity (s : Store) (b : Body) (inv : String) :
    match checkoutRun s b inv with
    | (s', .error _) => s'.products = s.products ∧ s'.orders = s.orders ∧ s'.users = s.users
    | (s', .ok o) => s'.orders = s.orders ++ [o] := by
  unfold checkoutRun
  rcases h : checkout s b inv with e | p
  · exact ⟨rfl, rfl, rfl⟩
  · obtain ⟨s', o⟩ := p
    exact (checkout_ok_inv h).1

/-- C2: in the per-line loop a line whose quantity exceeds the available
stock fails `InsufficientStock` labelled with the product's name (falling
back to its id), a line with sufficient stock decrements that product's
stock by exactly the line's quantity before the remaining lines run, and a
checkout started from a store of non-negative stocks leaves every stock
non-negative. -/
theorem checkout_stock_check_and_decrement :
    (∀ (currency : String) (prods : List (String × Product)) (item : SanItem)
        (rest : List SanItem) (acc : List InvoiceItem) (st : ℚ) (p : Product),
        getKey item.productId prods = some p → p.stock < (item.cantidad : ℚ) →
        processItems currency prods (item :: rest) acc st =
          .error (.insufficientStock (jsOrS p.nombre item.productId)))
    ∧ (∀ (currency : String) (prods : List (String × Product)) (item : SanItem)
        (rest : List SanItem) (acc : List InvoiceItem) (st : ℚ) (p : Product),
        getKey item.productId prods = some p → ¬ p.stock < (item.cantidad : ℚ) →
        processItems currency prods (item :: rest) acc st =
          processItems currency
            (setKey item.productId { p with stock := p.stock - item.cantidad } prods) rest
            (acc ++ [{ productId := item.productId, nombre := p.nombre,
                       quantity := item.cantidad,
                       unitPrice := priceAfterDiscount p.precio p.descuento,
                       currency := currency, discountPercentage := p.descuento,
                       lineTotal := lineTotalOf p.precio p.descuento item.cantidad }])
            (roundMoney (st + lineTotalOf p.precio p.descuento item.cantidad)))
    ∧ (∀ (s : Store) (b : Body) (inv : String),
        (∀ kv ∈ s.products, 0 ≤ (kv.2).stock) →
        ∀ kv ∈ (checkoutRun s b inv).1.products, 0 ≤ (kv.2).stock) := by
  refine ⟨?_, ?_, ?_⟩
  · intro currency prods item rest acc st p hk hs
    simp only [processItems, hk, if_pos hs]
  · intro currency prods item rest acc st p hk hs
    simp only [processItems, hk, if_neg hs]
  · intro s b inv hnn kv hkv
    rw [checkoutRun] at hkv
    rcases h : checkout s b inv with e | p
    · rw [h] at hkv
      exact hnn kv hkv
    · obtain ⟨s', o⟩ := p
      rw [h] at hkv
      obtain ⟨-, ⟨sanItems, curr, pr, ii, st, -, heq, hp⟩, -⟩ := checkout_ok_inv h
      simp only at hkv
      rw [hp] at hkv
      exact processItems_nonneg sanItems s.products [] 0 pr ii st hnn heq kv hkv

/-- The buyer record after the sample checkout: cart cleared, one order
reference appended. -/
def userUAfter : UserDoc :=
  { nombre := "Ana", apellido := "Diaz", email := "a@b.c",
    telefono := "", cedula := "", cart := [],
    orders := [{ codigo := "30", resumen := order30.resumen }] }

/-- The sample store after the sample checkout: stock decremented 5 → 2,
one order, counter at 30. -/
def store1 : Store :=
  { users := [("u1", userUAfter)], products := [(pidA, { prodA with stock := 2 })],
    orders := [order30], seqValue := some 30 }

set_option maxRecDepth 4000 in
theorem checkoutRun_sample_eval :
    checkoutRun store0 body0 "INV-1-001" = (store1, .ok order30) := by
  norm_num +decide [checkoutRun, checkout, checkoutTxn, processItems, sanitizeItems,
    sanitizeList, sanitizeOne, jsTrim, isValidObjectId, isHexChar, getKey, setKey,
    getNextOrderId, calculateShippingCost, priceAfterDiscount, lineTotalOf, taxesOf,
    roundMoney, jsOrS, jsUpper, pickUserFields, pickInlineUser, store0, body0, prodA,
    userU, pidA, DEFAULT_TAX_RATE, DEFAULT_CURRENCY, BASE_SHIPPING_FEE,
    PER_ITEM_SHIPPING_FEE, MAX_SHIPPING_FEE, List.dedup, store1, userUAfter, order30,
    show toString (30 : ℤ) = "30" from rfl]

/-- C5 (amended): every committed order's summary totals satisfy
`total = round2(max(0, subtotal + tax + shipping − discount))` over its own
stored fields — the clamp at zero is applied before rounding, so for a
discount exceeding `subtotal + tax + shipping` the stored total is 0, not
the rounded negative difference — and the total is never negative. -/
theorem order_total_clamped_formula (s : Store) (b : Body) (inv : String) (o : OrderDoc)
    (h : (checkoutRun s b inv).2 = .ok o) :
    o.resumen.totales.total =
      roundMoney (max 0 (o.resumen.totales.subtotal + o.resumen.totales.iva +
        o.resumen.totales.envio - o.resumen.totales.discount)) ∧
    0 ≤ o.resumen.totales.total := by
  rw [checkoutRun] at h
  rcases hc : checkout s b inv with e | p
  · rw [hc] at h; simp at h
  · obtain ⟨s', o'⟩ := p
    rw [hc] at h
    simp only [Except.ok.injEq] at h
    subst h
    obtain ⟨-, -, st, tax, ship, dv, ht⟩ := checkout_ok_inv hc
    rw [ht]
    exact ⟨rfl, roundMoney_nonneg (le_max_left _ _)⟩

/-- C5 counterexample: with a discount of 100 against a 35.55 pre-discount
total, the stored total is 0 — not `round2(subtotal + tax + shipping −
discount) = −64.45` — so the claim's unconditional equality fails for a
discount larger than `subtotal + tax + shipping`. -/
theorem order_total_formula_counterexample :
    ((checkoutRun store0 { body0 with discount := 100 } "INV-1-001").2.map
        (fun o => o.resumen.totales)) =
      .ok { subtotal := 27, iva := 81/20, envio := 9/2, discount := 100, total := 0 }
    ∧ roundMoney (27 + 81/20 + 9/2 - 100) = -(6445/100)
    ∧ (0 : ℚ) ≠ -(6445/100) := by
  refine ⟨?_, by norm_num [roundMoney], by norm_num⟩
  norm_num +decide [checkoutRun, checkout, checkoutTxn, processItems, sanitizeItems,
    sanitizeList, sanitizeOne, jsTrim, isValidObjectId, isHexChar, getKey, setKey,
    getNextOrderId, calculateShippingCost, priceAfterDiscount, lineTotalOf, taxesOf,
    roundMoney, jsOrS, jsUpper, pickUserFields, pickInlineUser, store0, body0, prodA,
    userU, pidA, DEFAULT_TAX_RATE, DEFAULT_CURRENCY, BASE_SHIPPING_FEE,
    PER_ITEM_SHIPPING_FEE, MAX_SHIPPING_FEE, List.dedup, Except.map,
    show toString (30 : ℤ) = "30" from rfl]

theorem order_total_clamped_formula_witness :
    order30.resumen.totales.total =
      roundMoney (max 0 (order30.resumen.totales.subtotal + order30.resumen.totales.iva +
        order30.resumen.totales.envio - order30.resumen.totales.discount)) ∧
    0 ≤ order30.resumen.totales.total :=
  order_total_clamped_formula store0 body0 "INV-1-001" order30
    (by rw [checkoutRun_sample_eval])

/-- C6: the sequence allocator increments the counter and returns the new
value, forcing any post-increment value below 30 up to exactly 30; the first
allocation returns 30 both from a counter document seeded with the schema
default 29 and from a missing counter document (created by the upsert); and
any run of successive allocations returns strictly increasing, never
repeating values. -/
theorem sequence_allocator_floor_and_monotonicity :
    getNextOrderId (some 29) = (30, 30) ∧ getNextOrderId none = (30, 30)
    ∧ (∀ v : ℤ, v + 1 < 30 → getNextOrderId (some v) = (30, 30))
    ∧ (∀ v : ℤ, 30 ≤ v + 1 → getNextOrderId (some v) = (v + 1, v + 1))
    ∧ (∀ (s : Option ℤ) (n : ℕ), List.Pairwise (· < ·) (allocRun s n)) := by
  refine ⟨by norm_num [getNextOrderId], by norm_num [getNextOrderId], ?_, ?_, allocRun_pairwise⟩
  · intro v hv
    simp only [getNextOrderId]
    rw [if_pos hv]
  · intro v hv
    simp only [getNextOrderId]
    rw [if_neg (by omega)]

theorem sequence_allocator_floor_and_monotonicity_witness :
    getNextOrderId (some 5) = (30, 30) ∧ getNextOrderId (some 41) = (42, 42) :=
  ⟨sequence_allocator_floor_and_monotonicity.2.2.1 5 (by norm_num),
   sequence_allocator_floor_and_monotonicity.2.2.2.1 41 (by norm_num)⟩

theorem checkout_stock_check_and_decrement_witness :
    processItems "USD" [(pidA, prodA)] [⟨pidA, 9⟩] [] 0 =
      .error (.insufficientStock (jsOrS prodA.nombre pidA))
    ∧ processItems "USD" [(pidA, prodA)] [⟨pidA, 3⟩] [] 0 =
        processItems "USD" (setKey pidA { prodA with stock := prodA.stock - 3 } [(pidA, prodA)])
          [] ([] ++ [{ productId := pidA, nombre := prodA.nombre, quantity := 3,
                       unitPrice := priceAfterDiscount prodA.precio prodA.descuento,
                       currency := "USD", discountPercentage := prodA.descuento,
                       lineTotal := lineTotalOf prodA.precio prodA.descuento 3 }])
          (roundMoney (0 + lineTotalOf prodA.precio prodA.descuento 3))
    ∧ (∀ kv ∈ (checkoutRun store0 body0 "INV-1-001").1.products, 0 ≤ (kv.2).stock) := by
  refine ⟨?_, ?_, ?_⟩
  · exact checkout_stock_check_and_decrement.1 "USD" _ ⟨pidA, 9⟩ [] [] 0 prodA
      (by simp [getKey]) (by norm_num [prodA])
  · exact checkout_stock_check_and_decrement.2.1 "USD" _ ⟨pidA, 3⟩ [] [] 0 prodA
      (by simp [getKey]) (by norm_num [prodA])
  · exact checkout_stock_check_and_decrement.2.2 store0 body0 "INV-1-001"
      (by intro kv hkv
          simp only [store0, List.mem_singleton] at hkv
          subst hkv
          norm_num [prodA])

/-- C4: the pricing functions — the per-line total is the discounted unit
price rounded to cents, times the quantity, itself rounded (each line is
rounded before the subtotal accumulates it); taxes are `round2(subtotal *
rate)`; a supplied non-negative manual shipping cost is used verbatim
(rounded), otherwise `min(cap, base + max(0, units - 1) * perItem)` with the
default constants 3.50 / 0.50 / 20.00; and the spec's numeric examples:
9.00×3 = 27.00, tax 4.05 at 15%, shipping 4.50 for 3 units, and total 35.55
at discount 0. -/
theorem pricing_engine_formulas :
    (∀ (u d : ℚ) (q : ℤ), lineTotalOf u d q = roundMoney (roundMoney (u * (1 - d / 100)) * q))
    ∧ (∀ (c : ℚ) (items : List SanItem), 0 ≤ c → calculateShippingCost (some c) items = roundMoney c)
    ∧ (∀ items : List SanItem, calculateShippingCost none items =
        roundMoney (min MAX_SHIPPING_FEE (BASE_SHIPPING_FEE +
          ((max 0 ((items.map (·.cantidad)).sum - 1) : ℤ) : ℚ) * PER_ITEM_SHIPPING_FEE)))
    ∧ (∀ s r : ℚ, taxesOf s r = roundMoney (s * r))
    ∧ BASE_SHIPPING_FEE = 35/10 ∧ PER_ITEM_SHIPPING_FEE = 5/10 ∧ MAX_SHIPPING_FEE = 20
    ∧ lineTotalOf 10 10 3 = 27
    ∧ taxesOf 27 (15/100) = 405/100
    ∧ calculateShippingCost none [⟨pidA, 3⟩] = 45/10
    ∧ ((checkoutRun store0 body0 "INV-1-001").2.map (fun o => o.resumen.totales.total))
        = .ok (3555/100) := by
  refine ⟨fun u d q => rfl, ?_, fun items => rfl, fun s r => rfl, rfl, rfl, rfl, ?_, ?_, ?_, ?_⟩
  · intro c items hc
    simp only [calculateShippingCost]
    rw [if_pos hc]
  · norm_num [lineTotalOf, priceAfterDiscount, roundMoney]
  · norm_num [taxesOf, roundMoney]
  · norm_num [calculateShippingCost, roundMoney, MAX_SHIPPING_FEE, BASE_SHIPPING_FEE,
      PER_ITEM_SHIPPING_FEE]
  · rw [checkoutRun_sample_eval]
    norm_num [Except.map, order30]

theorem pricing_engine_formulas_witness :
    calculateShippingCost (some 7) [] = roundMoney 7 :=
  pricing_engine_formulas.2.1 7 [] (by norm_num)

/-- C7: the item validator rejects a missing/empty list, an entry with no
product reference, an entry whose reference is not a syntactically valid
ObjectId, and an entry whose quantity is absent/non-numeric or not strictly
positive — each time failing fast on the first bad entry with a message
naming the field or product — and a validation failure makes the checkout
return `InvalidInput` with that message for every store, i.e. before any
product is read. -/
theorem item_validator_rejections :
    sanitizeItems [] = .error "products array is required"
    ∧ (∀ (q : Option ℚ) (rest : List RawItem),
        sanitizeItems (⟨none, q⟩ :: rest) = .error "Each item must include productId")
    ∧ (∀ (s : String) (q : Option ℚ) (rest : List RawItem), s ≠ "" → jsTrim s ≠ "" →
        isValidObjectId (jsTrim s) = false →
        sanitizeItems (⟨some s, q⟩ :: rest) = .error ("Invalid productId format: " ++ jsTrim s))
    ∧ (∀ (s : String) (rest : List RawItem), s ≠ "" → jsTrim s ≠ "" →
        isValidObjectId (jsTrim s) = true →
        sanitizeItems (⟨some s, none⟩ :: rest) = .error ("Invalid quantity for product " ++ jsTrim s))
    ∧ (∀ (s : String) (q : ℚ) (rest : List RawItem), s ≠ "" → jsTrim s ≠ "" →
        isValidObjectId (jsTrim s) = true → q ≤ 0 →
        sanitizeItems (⟨some s, some q⟩ :: rest) = .error ("Invalid quantity for product " ++ jsTrim s))
    ∧ (∀ (store : Store) (b : Body) (inv msg : String),
        sanitizeItems b.products = .error msg →
        checkoutRun store b inv = (store, .error (.invalidInput msg))) := by
  refine ⟨rfl, ?_, ?_, ?_, ?_, ?_⟩
  · intro q rest
    simp [sanitizeItems, sanitizeList, sanitizeOne]
  · intro s q rest hs ht hv
    simp [sanitizeItems, sanitizeList, sanitizeOne, hs, ht, hv]
  · intro s rest hs ht hv
    simp [sanitizeItems, sanitizeList, sanitizeOne, hs, ht, hv]
  · intro s q rest hs ht hv hq
    simp [sanitizeItems, sanitizeList, sanitizeOne, hs, ht, hv, hq]
  · intro store b inv msg hmsg
    rw [checkoutRun]
    simp only [checkout, hmsg]

theorem item_validator_rejections_witness :
    sanitizeItems [⟨some "xyz", some 1⟩] = .error ("Invalid productId format: " ++ jsTrim "xyz")
    ∧ sanitizeItems [⟨some pidA, some 0⟩] = .error ("Invalid quantity for product " ++ jsTrim pidA)
    ∧ sanitizeItems [⟨some pidA, none⟩] = .error ("Invalid quantity for product " ++ jsTrim pidA)
    ∧ checkoutRun store0 { body0 with products := [⟨some pidA, some 0⟩] } "X" =
        (store0, .error (.invalidInput ("Invalid quantity for product " ++ jsTrim pidA))) := by
  refine ⟨?_, ?_, ?_, ?_⟩
  · exact item_validator_rejections.2.2.1 "xyz" (some 1) [] (by decide) (by decide) (by decide)
  · exact item_validator_rejections.2.2.2.2.1 pidA 0 [] (by decide) (by decide) (by decide)
      (by norm_num)
  · exact item_validator_rejections.2.2.2.1 pidA [] (by decide) (by decide) (by decide)
  · exact item_validator_rejections.2.2.2.2.2 store0 _ "X" _
      (item_validator_rejections.2.2.2.2.1 pidA 0 [] (by decide) (by decide) (by decide)
        (by norm_num))

/-- C10 (amended): every line the validator accepts has an integer quantity
of at least 0 — the floor of a strictly positive number — but not of at
least 1: a fractional quantity strictly between 0 and 1 passes the
positivity check and floors to a zero-quantity line, which the checkout
transaction then processes. -/
theorem sanitized_quantities_nonneg (raw : List RawItem) (its : List SanItem)
    (h : sanitizeItems raw = .ok its) : ∀ it ∈ its, 0 ≤ it.cantidad := by
  rw [sanitizeItems] at h
  split at h
  · exact absurd h (by simp)
  · exact sanitizeList_nonneg h

theorem sanitized_quantities_nonneg_witness :
    (0 : ℤ) ≤ (SanItem.mk pidA 0).cantidad :=
  sanitized_quantities_nonneg [⟨some pidA, some (1/2)⟩] [⟨pidA, 0⟩]
    (by norm_num +decide [sanitizeItems, sanitizeList, sanitizeOne, jsTrim,
      isValidObjectId, isHexChar, pidA])
    ⟨pidA, 0⟩ (by simp)

theorem fractional_quantity_floors_to_zero :
    sanitizeItems [⟨some pidA, some (1/2)⟩] = .ok [⟨pidA, 0⟩]
    ∧ ((checkoutRun store0 { body0 with products := [⟨some pidA, some (1/2)⟩] } "INV-1-001").2.map
        (fun o => o.items.map (·.cantidad))) = .ok [0] := by
  constructor
  · norm_num +decide [sanitizeItems, sanitizeList, sanitizeOne, jsTrim,
      isValidObjectId, isHexChar, pidA]
  · norm_num +decide [checkoutRun, checkout, checkoutTxn, processItems, sanitizeItems,
      sanitizeList, sanitizeOne, jsTrim, isValidObjectId, isHexChar, getKey, setKey,
      getNextOrderId, calculateShippingCost, priceAfterDiscount, lineTotalOf, taxesOf,
      roundMoney, jsOrS, jsUpper, pickUserFields, pickInlineUser, store0, body0, prodA,
      userU, pidA, DEFAULT_TAX_RATE, DEFAULT_CURRENCY, BASE_SHIPPING_FEE,
      PER_ITEM_SHIPPING_FEE, MAX_SHIPPING_FEE, List.dedup, Except.map,
      show toString (30 : ℤ) = "30" from rfl]

/-- C3: evaluation at the failing input.  Two lines naming the same
existing, amply stocked product make the batch check
(`productDocs.length !== sanitizedItems.length`) fire, because the `$in`
query returns one document per distinct id: checkout fails 404 with an
`Products not found:` error naming NO product (the missing-filter is empty).
A genuinely missing product, by contrast, fails the same check and is named.
The first half contradicts both halves of the claim. -/
theorem duplicate_lines_trigger_empty_not_found :
    checkoutRun store0 { body0 with products := [⟨some pidA, some 1⟩, ⟨some pidA, some 1⟩] }
        "INV-1-001" = (store0, .error (.productsNotFound []))
    ∧ checkoutRun store0 { body0 with products := [⟨some pidB, some 1⟩] } "INV-1-001" =
        (store0, .error (.productsNotFound [pidB])) := by
  constructor <;>
    norm_num +decide [checkoutRun, checkout, checkoutTxn, processItems, sanitizeItems,
      sanitizeList, sanitizeOne, jsTrim, isValidObjectId, isHexChar, getKey, setKey,
      calculateShippingCost, jsOrS, jsUpper, pickUserFields, store0, body0, prodA,
      userU, pidA, pidB, DEFAULT_TAX_RATE, DEFAULT_CURRENCY, List.dedup]

/-- C8 counterexample: a request whose raw items list is invalid (empty) and
whose buyer reference names no existing user is answered with the
item-validation `InvalidInput` error, not with the buyer `NotFound` the
claim requires, because the route sanitizes items before resolving the
buyer. -/
theorem invalid_items_mask_missing_buyer :
    checkoutRun store0 { body0 with products := [], userId := some "u9" } "X" =
      (store0, .error (.invalidInput "products array is required"))
    ∧ CheckoutErr.invalidInput "products array is required" ≠ CheckoutErr.userNotFound := by
  constructor
  · rw [checkoutRun]
    simp [checkout, sanitizeItems]
  · simp

/-- C8 (amended): checkout validates items as its first step and resolves
the buyer second: an item-validation failure surfaces `InvalidInput` for
every store (hence also when the buyer is missing), and a request with valid
items whose buyer reference names no existing user fails `NotFound`. -/
theorem items_validated_before_buyer :
    (∀ (s : Store) (b : Body) (inv msg : String), sanitizeItems b.products = .error msg →
        (checkoutRun s b inv).2 = .error (.invalidInput msg))
    ∧ (∀ (s : Store) (b : Body) (inv uid : String) (its : List SanItem),
        b.userId = some uid → uid ≠ "" → getKey uid s.users = none →
        sanitizeItems b.products = .ok its →
        (checkoutRun s b inv).2 = .error .userNotFound) := by
  constructor
  · intro s b inv msg hmsg
    rw [checkoutRun]
    simp only [checkout, hmsg]
  · intro s b inv uid its huid hne hu hsan
    rw [checkoutRun]
    simp only [checkout, hsan, huid, if_neg hne, hu]

theorem items_validated_before_buyer_witness :
    (checkoutRun store0 { body0 with userId := some "u9" } "X").2 = .error .userNotFound :=
  items_validated_before_buyer.2 store0 _ "X" "u9" [⟨pidA, 3⟩] rfl (by decide) (by decide)
    (by norm_num +decide [sanitizeItems, sanitizeList, sanitizeOne, jsTrim,
      isValidObjectId, isHexChar, pidA])

/-- Stored product line whose quantity is a `<script>` string — persistable
through the schemaless `resumen: Object` field (e.g. via the generic
`POST /orders` route). -/
def evilProd : RProd :=
  { nombre := .str "Cola", cantidad := .str "<script>alert(1)</script>", quantity := .null,
    precio := .num 2, unitPrice := .null, subtotal := .num 4, lineTotal := .null }

/-- Stored order carrying `evilProd`. -/
def evilOrder : RenderOrder :=
  { resumenProductos := [evilProd],
    productos := [], items := [],
    resumenCliente := some ⟨"Ana", "", "a@b.c", ""⟩, cliente := none,
    resumenEntrega := none, entrega := none, resumenPago := none, pago := none,
    resumenTotales := some ⟨some 4, some 0, none, none, some 0, none, some 0, some 4⟩,
    totales := none,
    resumenInvoiceNumber := "F1", numeroFactura := "", idStr := "x",
    fecha := some "1/1/2026" }

/-- Stored order whose buyer name carries a `<script>` payload. -/
def scriptNameOrder : RenderOrder :=
  { resumenProductos := [], productos := [], items := [],
    resumenCliente := some ⟨"<script>alert(1)</script>", "", "a@b.c", ""⟩, cliente := none,
    resumenEntrega := none, entrega := none, resumenPago := none, pago := none,
    resumenTotales := some ⟨some 0, some 0, none, none, some 0, none, some 0, some 0⟩,
    totales := none,
    resumenInvoiceNumber := "F1", numeroFactura := "", idStr := "x",
    fecha := some "1/1/2026" }

set_option maxRecDepth 8000 in
set_option maxHeartbeats 16000000 in
/-- C9 counterexample: rendering an order whose stored line quantity is the
string `<script>alert(1)</script>` yields a document containing the raw
`<script>` — the quantity interpolation in the product row is not escaped,
so the escaping does not cover every user-controllable field. -/
theorem quantity_interpolated_unescaped :
    hasSub "<script>".data (renderInvoiceHtml evilOrder "now").data = true := by
  norm_num +decide [renderInvoiceHtml, normalizeProducts, normalizeTotals, normalizeProdList,
    normalizeProdEntry, productRowsHtml, productRowHtml, styleBlock, escapeHtml, escapeHtmlJ,
    escChar, jsOrS, jsTrim, jOr, JVal.truthy, JVal.interp, JVal.toNumberOpt, toNumberJ,
    jsNumRepr, formatMoney, toFixed2, centsRepr, roundMoney, jMul, evilOrder, evilProd,
    hasSub, leadsWith, String.join]

set_option maxRecDepth 8000 in
set_option maxHeartbeats 16000000 in
/-- C9 (amended): every string passed through `escapeHtml` (buyer
name/email/phone, product names, delivery, payment and invoice-number
fields) is free of the raw markup characters after escaping, and a buyer
name containing `<script>` appears in the rendered document fully escaped
(`&lt;script&gt;` present, raw `<script>` absent); the escaping does not,
however, cover the line-item quantity interpolation. -/
theorem escaping_covers_strings_not_quantity :
    (∀ s : String, ∀ c ∈ (escapeHtml s).data,
        c ≠ '<' ∧ c ≠ '>' ∧ c ≠ Char.ofNat 34 ∧ c ≠ Char.ofNat 39)
    ∧ hasSub "&lt;script&gt;alert(1)&lt;\x2fscript&gt;".data
        (renderInvoiceHtml scriptNameOrder "now").data = true
    ∧ hasSub "<script>".data (escapeHtml "<script>alert(1)</script>").data = false := by
  refine ⟨?_, ?_, ?_⟩
  · intro s c hc
    have hc' : c ∈ s.data.flatMap (fun b => (escChar b).data) := hc
    rcases List.mem_flatMap.1 hc' with ⟨b, -, hcb⟩
    rw [escChar] at hcb
    split at hcb
    · exact (by decide : ∀ x ∈ ("&amp;" : String).data,
        x ≠ '<' ∧ x ≠ '>' ∧ x ≠ Char.ofNat 34 ∧ x ≠ Char.ofNat 39) c hcb
    · split at hcb
      · exact (by decide : ∀ x ∈ ("&lt;" : String).data,
          x ≠ '<' ∧ x ≠ '>' ∧ x ≠ Char.ofNat 34 ∧ x ≠ Char.ofNat 39) c hcb
      · split at hcb
        · exact (by decide : ∀ x ∈ ("&gt;" : String).data,
            x ≠ '<' ∧ x ≠ '>' ∧ x ≠ Char.ofNat 34 ∧ x ≠ Char.ofNat 39) c hcb
        · split at hcb
          · exact (by decide : ∀ x ∈ ("&quot;" : String).data,
              x ≠ '<' ∧ x ≠ '>' ∧ x ≠ Char.ofNat 34 ∧ x ≠ Char.ofNat 39) c hcb
          · split at hcb
            · exact (by decide : ∀ x ∈ ("&#39;" : String).data,
                x ≠ '<' ∧ x ≠ '>' ∧ x ≠ Char.ofNat 34 ∧ x ≠ Char.ofNat 39) c hcb
            · rename_i h1 h2 h3 h4 h5
              have hb : c = b := by simpa [String.singleton] using hcb
              subst hb
              exact ⟨h2, h3, h4, h5⟩
  · norm_num +decide [renderInvoiceHtml, normalizeTotals, Option.orElse, normalizeProducts,
      normalizeProdList, normalizeProdEntry, productRowsHtml, productRowHtml, styleBlock,
      escapeHtml, escapeHtmlJ, escChar, jsOrS, jsTrim, jOr, JVal.truthy, JVal.interp,
      JVal.toNumberOpt, toNumberJ, jsNumRepr, formatMoney, toFixed2, centsRepr, roundMoney,
      jMul, scriptNameOrder, hasSub, leadsWith, String.join]
  · decide

theorem escaping_covers_strings_not_quantity_witness :
    ('&' : Char) ≠ '<' ∧ ('&' : Char) ≠ '>' ∧ ('&' : Char) ≠ Char.ofNat 34
      ∧ ('&' : Char) ≠ Char.ofNat 39 :=
  escaping_covers_strings_not_quantity.1 "<script>" '&' (by decide)

end Invoices
